import Mathlib

/-!
Verification of the chemetroller pump-control and PID-dispense layer.

The definitions below are shallow embeddings of `pump.py` and of
`PIDHandler` in `classes.py`.  Machine floats are modelled as rationals;
Python `round(x, n)` (banker's rounding, round-half-to-even) is modelled
by `rhe` / `pyRound2` / `pyRound1`.  Serial-line side effects are
modelled as an explicit event trace; Python exceptions are modelled with
`Except PyExc`.
-/

/-- Round-half-to-even of a rational to an integer, the rounding mode of
Python's built-in `round`. -/
def rhe (q : ℚ) : ℤ :=
  if q - ⌊q⌋ < 1/2 then ⌊q⌋
  else if 1/2 < q - ⌊q⌋ then ⌊q⌋ + 1
  else if ⌊q⌋ % 2 = 0 then ⌊q⌋ else ⌊q⌋ + 1

/-- Python `round(q, 2)`. -/
def pyRound2 (q : ℚ) : ℚ := (rhe (q * 100) : ℚ) / 100

/-- Python `round(q, 1)`. -/
def pyRound1 (q : ℚ) : ℚ := (rhe (q * 10) : ℚ) / 10

/-- Python exceptions that the modelled code can raise. -/
inductive PyExc where
  | valueError
  | attributeError
  | keyError
  | indexError
  | recursionError
  deriving DecidableEq, Repr

/-- Keys of `Pump_Serial.pump_dict`: integer addresses for physical pumps,
`"VPn"` strings for virtual pumps. -/
inductive PKey where
  | num (n : Nat)
  | vp (s : String)
  deriving DecidableEq, Repr

/-- Observable serial-line / scheduling effects of the pump layer.
`writeSpeed`, `writeRev`, `writeRun`, `writeHalt`, `writeLocal` are the
`S`, `V`, `G`, `H`, `L` command frames written to the serial device;
`poll` is one `check_status` exchange during the virtual-pump dispense
wait loop, carrying the run-status component of the returned tuple. -/
inductive Event where
  | writeSpeed (pumpId : Nat) (direction : String) (rpm : ℚ)
  | writeRev (pumpId : Nat) (rev : ℚ)
  | writeRun (pumpId : Nat)
  | writeHalt (pumpId : Nat)
  | writeLocal (k : PKey)
  | poll (pumpId : Nat) (status : String)
  | serialClose
  deriving DecidableEq, Repr

/-- Model of `pump.Pump`: bookkeeping record for one physical pump.
`rpm = 0` means speed never assigned; `vol_per_rev = none` means
uncalibrated (`None` in the source); `direction = none` likewise. -/
structure Pump where
  ID : Nat
  total_rev : ℚ
  rpm : ℚ
  vol_per_rev : Option ℚ
  direction : Option String
  deriving DecidableEq, Repr

/-- Model of `Pump.vol_to_rev`: converts a volume in mL to revolutions.  Raises
`ValueError` on a negative volume and `AttributeError` when
`vol_per_rev` is unassigned, in that order, as in the source. -/
def Pump.vol_to_rev (p : Pump) (vol : ℚ) : Except PyExc ℚ :=
  if vol < 0 then .error .valueError
  else
    match p.vol_per_rev with
    | none => .error .attributeError
    | some v => .ok (vol / v)

/-- Model of `Pump.set_speed`: records direction and rpm on the pump object. -/
def Pump.set_speed (p : Pump) (direction : String) (rpm : ℚ) : Pump :=
  { p with direction := some direction, rpm := rpm }

/-- Model of `Pump_Serial.run_pump` for a registered physical pump (the
`valid_pump` registry check of the caller has passed): raises
`ValueError` if no speed was ever assigned (`rpm == 0`), otherwise
writes the `G` frame. -/
def run_pump (p : Pump) : List Event × Except PyExc Unit :=
  if p.rpm = 0 then ([], .error .valueError)
  else ([Event.writeRun p.ID], .ok ())

/-- Model of `Pump_Serial.assign_rev` for a registered physical pump: rejects a
negative revolution count before any I/O, rounds to two decimals, and
treats a rounded count of zero as a complete no-op (no write, no
`total_rev` update, no run).  Otherwise it writes the `V` frame, adds
the rounded count to `total_rev` and, when `run` is set, invokes
`run_pump`. -/
def assign_rev (p : Pump) (rev : ℚ) (run : Bool) : List Event × Except PyExc Pump :=
  if rev < 0 then ([], .error .valueError)
  else
    let r := pyRound2 rev
    if r = 0 then ([], .ok p)
    else
      let p' := { p with total_rev := p.total_rev + r }
      if run then
        match run_pump p' with
        | (evs2, .error e) => (Event.writeRev p.ID r :: evs2, .error e)
        | (evs2, .ok _) => (Event.writeRev p.ID r :: evs2, .ok p')
      else ([Event.writeRev p.ID r], .ok p')

/-- The byte string the source's NAK test actually looks for:
`b'0x15' in reply` compares against the four ASCII characters
`'0' 'x' '1' '5'`, i.e. bytes `[0x30, 0x78, 0x31, 0x35]` - not the
single NAK byte `0x15`. -/
def nak_literal : List Nat := [0x30, 0x78, 0x31, 0x35]

/-- Python `needle in haystack` on byte strings: contiguous substring
test. -/
def bytesContains (needle : List Nat) : List Nat → Bool
  | [] => needle.isEmpty
  | c :: rest => needle.isPrefixOf (c :: rest) || bytesContains needle rest

/-- Python `str.lower()` as used on the direction argument
(`String.toLower`: case-folds each character). -/
def pyLower (s : String) : String := String.mk (s.data.map Char.toLower)

/-- Model of `Pump_Serial.assign_speed` for a registered physical pump.
Validates the rpm range and the (case-folded) direction before any
write; then writes the `S` frame and reads a reply.  If the reply
contains the source's literal `b'0x15'` it halts the pump and calls
itself again (full recursion in the source; `fuel` bounds it here, with
exhaustion modelling Python's `RecursionError`), then records
direction/rpm via `set_speed`.  `replies` supplies the successive
device replies, one per invocation. -/
def assign_speed : Nat → Pump → String → ℚ → List (List Nat) → List Event × Except PyExc Pump
  | fuel, p, direction, rpm, replies =>
    if rpm > 600 ∨ rpm < 10 then ([], .error .valueError)
    else
      let dir := pyLower direction
      if dir ≠ "cw" ∧ dir ≠ "ccw" then ([], .error .valueError)
      else
        let r := pyRound1 rpm
        let reply := replies.headD []
        let sp := Event.writeSpeed p.ID dir r
        if bytesContains nak_literal reply then
          match fuel with
          | 0 => ([sp, Event.writeHalt p.ID], .error .recursionError)
          | fuel' + 1 =>
            match assign_speed fuel' p dir r replies.tail with
            | (evs, .error e) => (sp :: Event.writeHalt p.ID :: evs, .error e)
            | (evs, .ok p') => (sp :: Event.writeHalt p.ID :: evs, .ok (p'.set_speed dir r))
        else ([sp], .ok (p.set_speed dir r))

/-- Model of `Pump_Serial.dispense_vol` on a physical pump: converts the volume
through the pump's own calibration and forwards to `assign_rev` with an
immediate run. -/
def dispense_vol_physical (p : Pump) (vol : ℚ) : List Event × Except PyExc Pump :=
  match p.vol_to_rev vol with
  | .error e => ([], .error e)
  | .ok revs => assign_rev p revs true

/-- Result of a virtual-pump dispense: normal completion with the two
updated pumps, a Python exception, or `hang` when the wait-for-idle
poll loop never observes a non-`"Running"` status. -/
inductive VDispResult where
  | done (p1 p2 : Pump)
  | err (e : PyExc)
  | hang
  deriving DecidableEq, Repr

/-- The `while check_status(pump_1.ID)[1] == 'Running'` wait loop of
`Pump_Serial.dispense_vol`: consumes successive run-status poll results
and stops at the first one that is not `"Running"`.  `none` models the
loop never terminating (every poll of the supplied list said
`"Running"`). -/
def pollLoop (pumpId : Nat) : List String → Option (List Event)
  | [] => none
  | s :: rest =>
    if s = "Running" then
      match pollLoop pumpId rest with
      | none => none
      | some evs => some (Event.poll pumpId s :: evs)
    else some [Event.poll pumpId s]

/-- Model of `Pump_Serial.dispense_vol` on a virtual pump composed of `p1` and
`p2` with split ratio `ratio`: converts `vol * ratio` through `p1`'s
calibration and `vol * (1 - ratio)` through `p2`'s, assigns the first
with an immediate run, arms the second with `run := false`, busy-waits
on `p1`'s run status, and finally runs `p2`.  `statuses` supplies the
successive run-status poll results. -/
def dispense_vol_virtual (p1 p2 : Pump) (ratio vol : ℚ) (statuses : List String) :
    List Event × VDispResult :=
  match p1.vol_to_rev (vol * ratio) with
  | .error e => ([], .err e)
  | .ok rev1 =>
    match p2.vol_to_rev (vol * (1 - ratio)) with
    | .error e => ([], .err e)
    | .ok rev2 =>
      match assign_rev p1 rev1 true with
      | (evs1, .error e) => (evs1, .err e)
      | (evs1, .ok p1') =>
        match assign_rev p2 rev2 false with
        | (evs2, .error e) => (evs1 ++ evs2, .err e)
        | (evs2, .ok p2') =>
          match pollLoop p1.ID statuses with
          | none => (evs1 ++ evs2, .hang)
          | some pevs =>
            match run_pump p2' with
            | (revs, .error e) => (evs1 ++ evs2 ++ pevs ++ revs, .err e)
            | (revs, .ok _) => (evs1 ++ evs2 ++ pevs ++ revs, .done p1' p2')

/-- One position of the `re.compile(r"\d{5}")` search: does a window of
five decimal digits start here? -/
def fiveDigitWindow (l : List Char) : Bool :=
  (l.take 5).length == 5 && (l.take 5).all Char.isDigit

/-- Model of `re.search(response_regex, reply)`: leftmost window of five
consecutive decimal digits, or `none` when there is no match (in which
case the source's `.group(0)` on `None` raises `AttributeError`). -/
def search5 : List Char → Option (List Char)
  | [] => none
  | c :: rest =>
    if fiveDigitWindow (c :: rest) then some ((c :: rest).take 5)
    else search5 rest

/-- Model of `Pump_Serial.status_dict`: maps a character-info index and the digit
found there to its human-readable form; `none` models a Python
`KeyError`. -/
def status_dict (idx : Nat) (c : Char) : Option String :=
  match idx with
  | 0 =>
    if c = '0' then some "Local" else if c = '1' then some "Remote" else none
  | 3 =>
    if c = '1' then some "Idle" else if c = '2' then some "Waiting Go"
    else if c = '3' then some "Running" else if c = '4' then some "Stopped Locally"
    else if c = '5' then some "No Motor Feedback" else if c = '6' then some "Overload"
    else if c = '7' then some "Excessive Motor Feedback" else none
  | 4 =>
    if c = '0' then some "None" else if c = '1' then some "Parity"
    else if c = '2' then some "Framing" else if c = '3' then some "Overun"
    else if c = '4' then some "Invalid Command" else if c = '5' then some "Invalid Data"
    else none
  | _ => none

/-- Python sequence indexing `status[i]`: `IndexError` out of range. -/
def pyIndex (l : List Char) (i : Nat) : Except PyExc Char :=
  match l.get? i with
  | some c => .ok c
  | none => .error .indexError

/-- Python dict lookup `status_dict[idx][c]`: `KeyError` on a missing
key. -/
def dictLookup (idx : Nat) (c : Char) : Except PyExc String :=
  match status_dict idx c with
  | some s => .ok s
  | none => .error .keyError

/-- The comprehension `[status_dict[i][status[i]] for i in [0,3,4]]` of
`check_status`, evaluated left to right. -/
def decode_status (status : List Char) : Except PyExc (String × String × String) := do
  let c0 ← pyIndex status 0
  let s0 ← dictLookup 0 c0
  let c3 ← pyIndex status 3
  let s3 ← dictLookup 3 c3
  let c4 ← pyIndex status 4
  let s4 ← dictLookup 4 c4
  return (s0, s3, s4)

/-- Model of `Pump_Serial.check_status` for a registered physical pump
(`valid_pump` passes).  `serial_fails` models the serial layer raising
`SerialException` during the buffer-clear / write / read sequence, which
the source catches and maps to the `Disconnected` tuple; `reply` is the
decoded reply text otherwise.  A reply with no five-digit field makes
`re.search(...).group(0)` raise `AttributeError`, which the source does
not catch; `IndexError`/`KeyError` from the decode step are caught and
mapped to `("", "", "")`. -/
def check_status (serial_fails : Bool) (reply : String) :
    Except PyExc (String × String × String) :=
  if serial_fails then .ok ("Disconnected", "Disconnected", "Disconnected")
  else
    match search5 reply.toList with
    | none => .error .attributeError
    | some status =>
      match decode_status status with
      | .ok t => .ok t
      | .error .indexError => .ok ("", "", "")
      | .error .keyError => .ok ("", "", "")
      | .error e => .error e

/-- An entry of `Pump_Serial.pump_dict`: a physical `Pump` or a `VPump`
(two constituent pumps and a split ratio). -/
inductive PEntry where
  | phys (p : Pump)
  | virt (p1 p2 : Pump) (ratio : ℚ)
  deriving DecidableEq, Repr

/-- Lookup in `pump_dict` (insertion-ordered association list, like a
Python dict). -/
def findEntry : List (PKey × PEntry) → PKey → Option PEntry
  | [], _ => none
  | (k, e) :: rest, key => if k = key then some e else findEntry rest key

/-- Python `None`, the implicit return value of `valid_pump`. -/
inductive PyNone where
  | mk
  deriving DecidableEq, Repr

/-- Python truthiness of `None`: falsy. -/
def pyTruthy : PyNone → Bool := fun _ => false

/-- Model of `Pump_Serial.valid_pump`: raises `ValueError` when the key is absent
or refers to a virtual pump; otherwise falls off the end of the
function, returning `None`. -/
def valid_pump (d : List (PKey × PEntry)) (k : PKey) : Except PyExc PyNone :=
  match findEntry d k with
  | none => .error .valueError
  | some (.virt _ _ _) => .error .valueError
  | some (.phys _) => .ok PyNone.mk

/-- The `for i in self.pump_dict:` loop of `Pump_Serial.close`: for each
key, the result of `valid_pump` is used as the condition of
`if self.valid_pump(i):`, guarding the `L` (local-control) frame. -/
def close_loop (d : List (PKey × PEntry)) : List PKey → List Event × Except PyExc Unit
  | [] => ([], .ok ())
  | k :: rest =>
    match valid_pump d k with
    | .error e => ([], .error e)
    | .ok v =>
      let evs := if pyTruthy v then [Event.writeLocal k] else []
      let (evs2, res) := close_loop d rest
      (evs ++ evs2, res)

/-- Model of `Pump_Serial.close`: the loop above, then `serial_dev.close()`. -/
def close (d : List (PKey × PEntry)) : List Event × Except PyExc Unit :=
  match close_loop d (d.map Prod.fst) with
  | (evs, .ok _) => (evs ++ [Event.serialClose], .ok ())
  | (evs, .error e) => (evs, .error e)

/-- State of `classes.PIDHandler` relevant to the dispense-control
claims: the recorded outputs (`self.vol[0:num_event]`; the unwritten
tail of the numpy array is zero, so `np.sum(self.vol)` equals the sum of
this list), the cumulative ceiling `max_vol`, and the log-file records
`(input value, output, cumulative sum)` appended by `write_to_log`. -/
structure PIDState where
  vol : List ℚ
  max_vol : ℚ
  log : List (ℚ × ℚ × ℚ)
  deriving DecidableEq, Repr

/-- The output computation of one gated `trigger_PID` tick:
`round(self.pid(value), 2)` when the PID is enabled (`pid_out` stands
for the raw `self.pid(value)` result), literal `0` when disabled, then
the ceiling clip `if vol + np.sum(self.vol) > self.max_vol:
vol = max(0, self.max_vol - np.sum(self.vol))`. -/
def tick_output (pid_out : ℚ) (auto_mode : Bool) (s : PIDState) : ℚ :=
  let vol0 := if auto_mode then pyRound2 pid_out else 0
  if vol0 + s.vol.sum > s.max_vol then max 0 (s.max_vol - s.vol.sum) else vol0

/-- One gated `PIDHandler.trigger_PID` tick (the branch taken when
`num_event < pred_handler.num_event`, i.e. a new measurement exists):
records the clipped output at `self.vol[num_event]`, increments
`num_event`, and appends a record to the log via `write_to_log`
(`value` stands for the averaged tracked measurement; the cumulative
column is `np.cumsum(self.vol[:num_event])[-1]`). -/
def trigger_PID (value pid_out : ℚ) (auto_mode : Bool) (s : PIDState) : PIDState :=
  let vol := tick_output pid_out auto_mode s
  { s with vol := s.vol ++ [vol], log := s.log ++ [(value, vol, s.vol.sum + vol)] }

/-- Fresh `PIDHandler` state: empty output history and log, given
ceiling. -/
def initPID (max_vol : ℚ) : PIDState :=
  { vol := [], max_vol := max_vol, log := [] }

/-- A sequence of gated ticks; each list entry supplies the measurement,
the raw PID output for that tick, and the enabled flag. -/
def runTicks (ticks : List (ℚ × ℚ × Bool)) (s : PIDState) : PIDState :=
  ticks.foldl (fun st t => trigger_PID t.1 t.2.1 t.2.2 st) s

/-- The `self.max_vol = max_vol` assignment of `PIDHandler.update_all`
(the other assignments there - tracked index, setpoint, tunings, output
limits - live on the `simple_pid` object and do not touch the output
history). -/
def update_max_vol (s : PIDState) (m : ℚ) : PIDState :=
  { s with max_vol := m }

/-- A sample physical pump used in concrete instantiations. -/
def pumpA : Pump :=
  { ID := 1, total_rev := 0, rpm := 0, vol_per_rev := none, direction := none }

/-- A sample calibrated physical pump with a speed assigned. -/
def pumpB : Pump :=
  { ID := 2, total_rev := 0, rpm := 100, vol_per_rev := some 2, direction := some "cw" }

theorem rhe_intCast (z : ℤ) : rhe (z : ℚ) = z := by
  unfold rhe
  rw [Int.floor_intCast]
  norm_num

theorem pyRound2_intCast (z : ℤ) : pyRound2 (z : ℚ) = z := by
  unfold pyRound2
  rw [show ((z : ℚ) * 100) = ((z * 100 : ℤ) : ℚ) by push_cast; ring, rhe_intCast]
  push_cast
  field_simp

theorem rhe_nonneg {q : ℚ} (h : 0 ≤ q) : 0 ≤ rhe q := by
  unfold rhe
  have hf : (0:ℤ) ≤ ⌊q⌋ := Int.floor_nonneg.mpr h
  split
  · exact hf
  · split
    · omega
    · split
      · exact hf
      · omega

theorem pyRound2_nonneg {q : ℚ} (h : 0 ≤ q) : 0 ≤ pyRound2 q := by
  unfold pyRound2
  have h1 : (0:ℤ) ≤ rhe (q * 100) := rhe_nonneg (by positivity)
  apply div_nonneg _ (by norm_num : (0:ℚ) ≤ 100)
  exact_mod_cast h1

theorem rhe_zero_of_small {q : ℚ} (h0 : 0 ≤ q) (h : q < 1/2) : rhe q = 0 := by
  have hf : ⌊q⌋ = 0 := Int.floor_eq_zero_iff.mpr ⟨h0, by linarith⟩
  unfold rhe
  rw [hf]
  simp only [Int.cast_zero, sub_zero]
  rw [if_pos h]

theorem trigger_PID_max_vol (value raw : ℚ) (a : Bool) (s : PIDState) :
    (trigger_PID value raw a s).max_vol = s.max_vol := rfl

theorem trigger_PID_vol (value raw : ℚ) (a : Bool) (s : PIDState) :
    (trigger_PID value raw a s).vol = s.vol ++ [tick_output raw a s] := rfl

theorem trigger_PID_sum (value raw : ℚ) (a : Bool) (s : PIDState) :
    (trigger_PID value raw a s).vol.sum = s.vol.sum + tick_output raw a s := by
  rw [trigger_PID_vol]
  simp

theorem tick_output_le (raw : ℚ) (a : Bool) (s : PIDState)
    (h : s.vol.sum ≤ s.max_vol) :
    s.vol.sum + tick_output raw a s ≤ s.max_vol := by
  simp only [tick_output]
  by_cases hc : (if a then pyRound2 raw else 0) + s.vol.sum > s.max_vol
  · rw [if_pos hc]
    rcases le_or_lt 0 (s.max_vol - s.vol.sum) with h1 | h1
    · rw [max_eq_right h1]
      linarith
    · rw [max_eq_left h1.le]
      linarith
  · rw [if_neg hc]
    push_neg at hc
    linarith

theorem runTicks_cons (t : ℚ × ℚ × Bool) (ts : List (ℚ × ℚ × Bool)) (s : PIDState) :
    runTicks (t :: ts) s = runTicks ts (trigger_PID t.1 t.2.1 t.2.2 s) := rfl

theorem runTicks_max_vol (ts : List (ℚ × ℚ × Bool)) (s : PIDState) :
    (runTicks ts s).max_vol = s.max_vol := by
  induction ts generalizing s with
  | nil => rfl
  | cons t ts ih => rw [runTicks_cons, ih, trigger_PID_max_vol]

theorem runTicks_sum_le (ts : List (ℚ × ℚ × Bool)) (s : PIDState)
    (h : s.vol.sum ≤ s.max_vol) :
    (runTicks ts s).vol.sum ≤ (runTicks ts s).max_vol := by
  induction ts generalizing s with
  | nil => exact h
  | cons t ts ih =>
    rw [runTicks_cons]
    apply ih
    rw [trigger_PID_sum, trigger_PID_max_vol]
    exact tick_output_le _ _ _ h

/-- C1: starting from a fresh controller with nonnegative ceiling `m`,
after any sequence of gated ticks the sum of the recorded outputs never
exceeds `m`; moreover on any tick where the PID output (rounded, zero
when disabled) plus the sum of prior outputs would exceed the ceiling,
the recorded output equals `max 0 (ceiling - sum of prior outputs)`. -/
theorem trigger_PID_ceiling (m : ℚ) (hm : 0 ≤ m) (ticks : List (ℚ × ℚ × Bool)) :
    (runTicks ticks (initPID m)).vol.sum ≤ m ∧
    ∀ (s : PIDState) (pid_out : ℚ) (a : Bool),
      (if a then pyRound2 pid_out else 0) + s.vol.sum > s.max_vol →
      tick_output pid_out a s = max 0 (s.max_vol - s.vol.sum) := by
  constructor
  · have h := runTicks_sum_le ticks (initPID m) (by simpa [initPID] using hm)
    rwa [runTicks_max_vol] at h
  · intro s pid_out a h
    simp only [tick_output]
    rw [if_pos h]

theorem trigger_PID_ceiling_witness :
    (0:ℚ) ≤ 10 ∧
    ((runTicks [((1:ℚ), (5:ℚ), true)] (initPID 10)).vol.sum ≤ 10 ∧
     ∀ (s : PIDState) (pid_out : ℚ) (a : Bool),
       (if a then pyRound2 pid_out else 0) + s.vol.sum > s.max_vol →
       tick_output pid_out a s = max 0 (s.max_vol - s.vol.sum)) :=
  ⟨by norm_num, trigger_PID_ceiling 10 (by norm_num) [((1:ℚ), (5:ℚ), true)]⟩

/-- C7: with the controller disabled, a gated tick records exactly 0 -
independently of the PID computation, which is never consulted - and
still appends a full record to the log. -/
theorem disabled_tick_records_zero (s : PIDState) (value raw raw' : ℚ) :
    trigger_PID value raw false s = trigger_PID value raw' false s ∧
    tick_output raw false s = 0 ∧
    (trigger_PID value raw false s).vol = s.vol ++ [0] ∧
    (trigger_PID value raw false s).log = s.log ++ [(value, 0, s.vol.sum)] := by
  have h0 : ∀ r : ℚ, tick_output r false s = 0 := by
    intro r
    simp only [tick_output, Bool.false_eq_true, if_false]
    split
    · rename_i h
      rw [max_eq_left (by linarith : s.max_vol - s.vol.sum ≤ 0)]
    · rfl
  refine ⟨?_, h0 raw, ?_, ?_⟩
  · simp only [trigger_PID, h0]
  · rw [trigger_PID_vol, h0]
  · simp only [trigger_PID, h0, add_zero]

theorem tick_output_zero_of_over (raw : ℚ) (a : Bool) (s : PIDState)
    (hraw : 0 ≤ raw) (hover : s.max_vol < s.vol.sum) :
    tick_output raw a s = 0 := by
  have hv0 : 0 ≤ (if a then pyRound2 raw else 0) := by
    split
    · exact pyRound2_nonneg hraw
    · exact le_refl 0
  simp only [tick_output]
  rw [if_pos (by linarith : (if a then pyRound2 raw else 0) + s.vol.sum > s.max_vol)]
  rw [max_eq_left (by linarith : s.max_vol - s.vol.sum ≤ 0)]

theorem runTicks_frozen (ticks : List (ℚ × ℚ × Bool)) (s : PIDState)
    (hover : s.max_vol < s.vol.sum) (hraw : ∀ t ∈ ticks, 0 ≤ t.2.1) :
    (runTicks ticks s).vol = s.vol ++ List.replicate ticks.length 0 := by
  induction ticks generalizing s with
  | nil => simp [runTicks]
  | cons t ts ih =>
    rw [runTicks_cons]
    have h0 : tick_output t.2.1 t.2.2 s = 0 :=
      tick_output_zero_of_over _ _ _ (hraw t (by simp)) hover
    have hover' : (trigger_PID t.1 t.2.1 t.2.2 s).max_vol
        < (trigger_PID t.1 t.2.1 t.2.2 s).vol.sum := by
      rw [trigger_PID_max_vol, trigger_PID_sum, h0, add_zero]
      exact hover
    rw [ih _ hover' (fun x hx => hraw x (List.mem_cons_of_mem _ hx))]
    rw [trigger_PID_vol, h0]
    simp [List.replicate_succ]

/-- C10: lowering the ceiling strictly below the current cumulative sum
freezes the controller: every subsequent gated tick (with nonnegative
raw PID output) records exactly 0, so the cumulative sum never grows
but stays strictly above the new ceiling forever. -/
theorem lowered_ceiling_freezes (s : PIDState) (m : ℚ) (hm : m < s.vol.sum)
    (ticks : List (ℚ × ℚ × Bool)) (hraw : ∀ t ∈ ticks, 0 ≤ t.2.1) :
    (runTicks ticks (update_max_vol s m)).vol
      = s.vol ++ List.replicate ticks.length 0 ∧
    (runTicks ticks (update_max_vol s m)).vol.sum = s.vol.sum ∧
    m < (runTicks ticks (update_max_vol s m)).vol.sum := by
  have hover : (update_max_vol s m).max_vol < (update_max_vol s m).vol.sum := hm
  have hfroz := runTicks_frozen ticks (update_max_vol s m) hover hraw
  have hsum : (runTicks ticks (update_max_vol s m)).vol.sum = s.vol.sum := by
    rw [hfroz]
    simp [update_max_vol]
  exact ⟨hfroz, hsum, by rw [hsum]; exact hm⟩

theorem lowered_ceiling_freezes_witness :
    ((3:ℚ) < List.sum [(5:ℚ)] ∧ ∀ t ∈ [((1:ℚ), (2:ℚ), true)], 0 ≤ t.2.1) ∧
    ((runTicks [((1:ℚ), (2:ℚ), true)]
        (update_max_vol { vol := [5], max_vol := 10, log := [] } 3)).vol
      = [(5:ℚ)] ++ List.replicate 1 0 ∧
     (runTicks [((1:ℚ), (2:ℚ), true)]
        (update_max_vol { vol := [5], max_vol := 10, log := [] } 3)).vol.sum
      = List.sum [(5:ℚ)] ∧
     (3:ℚ) < (runTicks [((1:ℚ), (2:ℚ), true)]
        (update_max_vol { vol := [5], max_vol := 10, log := [] } 3)).vol.sum) :=
  ⟨⟨by norm_num, by intro t ht; simp at ht; rw [ht]; norm_num⟩,
   lowered_ceiling_freezes { vol := [5], max_vol := 10, log := [] } 3 (by norm_num)
     [((1:ℚ), (2:ℚ), true)] (by intro t ht; simp at ht; rw [ht]; norm_num)⟩

/-- C9: a revolution request whose two-decimal rounding is zero is a
complete no-op on `assign_rev` - no bytes written, no run command, the
pump (including `total_rev`) unchanged - and a negative request raises
`ValueError` before any I/O. -/
theorem assign_rev_zero_noop (p : Pump) (rev : ℚ) (run : Bool) :
    (0 ≤ rev → pyRound2 rev = 0 → assign_rev p rev run = ([], .ok p)) ∧
    (rev < 0 → assign_rev p rev run = ([], .error .valueError)) := by
  constructor
  · intro h0 hr
    unfold assign_rev
    rw [if_neg (not_lt.mpr h0)]
    simp [hr]
  · intro h
    unfold assign_rev
    rw [if_pos h]

theorem assign_rev_zero_noop_witness :
    ((0:ℚ) ≤ 1/250 ∧ pyRound2 (1/250) = 0 ∧
      assign_rev pumpA (1/250) true = ([], .ok pumpA)) ∧
    ((-1:ℚ) < 0 ∧ assign_rev pumpA (-1) true = ([], .error .valueError)) := by
  have hz : pyRound2 ((1:ℚ)/250) = 0 := by
    unfold pyRound2
    rw [show (1/250 : ℚ) * 100 = 2/5 by norm_num,
        rhe_zero_of_small (by norm_num) (by norm_num)]
    norm_num
  exact ⟨⟨by norm_num, hz, (assign_rev_zero_noop pumpA (1/250) true).1 (by norm_num) hz⟩,
         ⟨by norm_num, (assign_rev_zero_noop pumpA (-1) true).2 (by norm_num)⟩⟩

/-- C8: `assign_speed` rejects an rpm outside [10, 600], and a direction
that does not case-fold to "cw" or "ccw", by raising `ValueError`
before any byte is written (empty event trace) and without touching the
pump's recorded speed and direction (no state is produced). -/
theorem assign_speed_rejects_invalid (fuel : Nat) (p : Pump) (direction : String)
    (rpm : ℚ) (replies : List (List Nat)) :
    (rpm > 600 ∨ rpm < 10 →
      assign_speed fuel p direction rpm replies = ([], .error .valueError)) ∧
    (pyLower direction ≠ "cw" → pyLower direction ≠ "ccw" →
      assign_speed fuel p direction rpm replies = ([], .error .valueError)) := by
  constructor
  · intro h
    unfold assign_speed
    rw [if_pos h]
  · intro h1 h2
    unfold assign_speed
    by_cases hr : rpm > 600 ∨ rpm < 10
    · rw [if_pos hr]
    · rw [if_neg hr, if_pos ⟨h1, h2⟩]

theorem assign_speed_rejects_invalid_witness :
    (((601:ℚ) > 600 ∨ (601:ℚ) < 10) ∧
      assign_speed 3 pumpA "cw" 601 [] = ([], .error .valueError)) ∧
    ((pyLower "up" ≠ "cw" ∧ pyLower "up" ≠ "ccw") ∧
      assign_speed 3 pumpA "up" 100 [] = ([], .error .valueError)) :=
  ⟨⟨Or.inl (by norm_num),
    (assign_speed_rejects_invalid 3 pumpA "cw" 601 []).1 (Or.inl (by norm_num))⟩,
   ⟨⟨by decide, by decide⟩,
    (assign_speed_rejects_invalid 3 pumpA "up" 100 []).2 (by decide) (by decide)⟩⟩

/-- C3 (code bug): a serial-layer failure yields the `Disconnected`
tuple and a five-digit status field with unrecognized digit codes
yields the `("", "", "")` sentinel, but a malformed or too-short reply
containing no five-digit field makes `check_status` raise
`AttributeError` (from `re.search(...).group(0)` on `None`, which only
`SerialException`, `IndexError` and `KeyError` handlers surround)
instead of returning the sentinel tuple.  A well-formed reply decodes
normally. -/
theorem check_status_no_match_raises :
    check_status true "anything" = .ok ("Disconnected", "Disconnected", "Disconnected") ∧
    check_status false "" = .error .attributeError ∧
    check_status false "123" = .error .attributeError ∧
    check_status false "99999" = .ok ("", "", "") ∧
    check_status false "10330" = .ok ("Remote", "Running", "None") :=
  ⟨rfl, rfl, rfl, rfl, rfl⟩

/-- C4 (code bug): `close` writes the return-to-local (`L`) frame for no
registered pump - `if self.valid_pump(i):` tests the `None` that
`valid_pump` returns, which is falsy - and raises `ValueError` as soon
as the registry contains a virtual pump, because `valid_pump` raises on
virtual-pump keys; the claimed behaviour (local-control command to
every pump, never raising) does not hold. -/
theorem close_writes_no_local_and_raises_on_virtual :
    close [(PKey.num 1, PEntry.phys pumpA)] = ([Event.serialClose], .ok ()) ∧
    close [(PKey.num 1, PEntry.phys pumpA),
           (PKey.vp "VP2", PEntry.virt pumpA pumpA (1/2))]
      = ([], .error .valueError) :=
  ⟨rfl, rfl⟩

/-- C5 (code bug): the NAK test of `assign_speed` is
`if b'0x15' in reply:`, which searches for the four ASCII characters
`"0x15"`, not for the NAK byte `0x15`; a reply consisting of the
genuine NAK byte therefore triggers no halt and no retry - the command
completes with a single `S` frame written and the speed recorded. -/
theorem assign_speed_nak_byte_ignored :
    bytesContains nak_literal [0x15] = false ∧
    bytesContains nak_literal [0x30, 0x78, 0x31, 0x35] = true ∧
    assign_speed 8 pumpA "cw" 100 [[0x15]]
      = ([Event.writeSpeed 1 "cw" (pyRound1 100)],
         .ok (pumpA.set_speed "cw" (pyRound1 100))) := by
  have h1 : ¬((100:ℚ) > 600 ∨ (100:ℚ) < 10) := by norm_num
  have h2 : ¬(pyLower "cw" ≠ "cw" ∧ pyLower "cw" ≠ "ccw") := by decide
  have h3 : bytesContains nak_literal [0x15] = false := by decide
  have h4 : pyLower "cw" = "cw" := by decide
  refine ⟨h3, by decide, ?_⟩
  unfold assign_speed
  rw [if_neg h1]
  simp [h2, h3, h4, pumpA]

theorem dispense_vol_physical_eq (p : Pump) (v x : ℚ) (hv : p.vol_per_rev = some v)
    (hvpos : 0 < v) (hx : 0 ≤ x) (hrpm : p.rpm ≠ 0) (hr0 : pyRound2 (x / v) ≠ 0) :
    dispense_vol_physical p x =
      ([Event.writeRev p.ID (pyRound2 (x / v)), Event.writeRun p.ID],
       .ok { p with total_rev := p.total_rev + pyRound2 (x / v) }) := by
  have hconv : p.vol_to_rev x = .ok (x / v) := by
    unfold Pump.vol_to_rev
    rw [if_neg (not_lt.mpr hx), hv]
  unfold dispense_vol_physical
  rw [hconv]
  show assign_rev p (x / v) true = _
  have hnneg : ¬(x / v < 0) := not_lt.mpr (div_nonneg hx hvpos.le)
  unfold assign_rev
  rw [if_neg hnneg]
  simp [hr0, run_pump, hrpm]

/-- C6: on a pump calibrated with `vol_per_rev = v` (positive, as
`set_vol_per_rev` enforces), with a speed assigned, dispensing a
nonnegative volume `x` commands exactly `round(x / v, 2)` revolutions
(the `V` frame carries that count and it is the count added to
`total_rev`), followed by the run frame; the conversion raises
`ValueError` for a negative volume and `AttributeError` when
`vol_per_rev` is unassigned; and an identical second dispense commands
the same revolution count - the conversion does not accumulate. -/
theorem dispense_vol_physical_rounding (p : Pump) (v x : ℚ) :
    (p.vol_per_rev = some v → 0 < v → 0 ≤ x → p.rpm ≠ 0 → pyRound2 (x / v) ≠ 0 →
      dispense_vol_physical p x =
        ([Event.writeRev p.ID (pyRound2 (x / v)), Event.writeRun p.ID],
         .ok { p with total_rev := p.total_rev + pyRound2 (x / v) }) ∧
      (dispense_vol_physical { p with total_rev := p.total_rev + pyRound2 (x / v) } x).1
        = (dispense_vol_physical p x).1) ∧
    (0 ≤ x → p.vol_per_rev = none → dispense_vol_physical p x = ([], .error .attributeError)) ∧
    (x < 0 → dispense_vol_physical p x = ([], .error .valueError)) := by
  refine ⟨?_, ?_, ?_⟩
  · intro hv hvpos hx hrpm hr0
    have h1 := dispense_vol_physical_eq p v x hv hvpos hx hrpm hr0
    have h2 := dispense_vol_physical_eq { p with total_rev := p.total_rev + pyRound2 (x / v) }
      v x hv hvpos hx hrpm hr0
    exact ⟨h1, by rw [h1, h2]⟩
  · intro hx hnone
    unfold dispense_vol_physical Pump.vol_to_rev
    rw [if_neg (not_lt.mpr hx), hnone]
  · intro hx
    unfold dispense_vol_physical Pump.vol_to_rev
    rw [if_pos hx]

theorem dispense_vol_physical_rounding_witness :
    (pumpB.vol_per_rev = some 2 ∧ (0:ℚ) < 2 ∧ (0:ℚ) ≤ 6 ∧ pumpB.rpm ≠ 0 ∧
      pyRound2 ((6:ℚ) / 2) ≠ 0) ∧
    (dispense_vol_physical pumpB 6 =
        ([Event.writeRev 2 (pyRound2 ((6:ℚ) / 2)), Event.writeRun 2],
         .ok { pumpB with total_rev := pumpB.total_rev + pyRound2 ((6:ℚ) / 2) }) ∧
      (dispense_vol_physical { pumpB with total_rev := pumpB.total_rev + pyRound2 ((6:ℚ) / 2) } 6).1
        = (dispense_vol_physical pumpB 6).1) := by
  have hr : pyRound2 ((6:ℚ) / 2) = 3 := by
    rw [show ((6:ℚ) / 2) = ((3:ℤ) : ℚ) by norm_num, pyRound2_intCast]
    norm_num
  refine ⟨⟨rfl, by norm_num, by norm_num, by simp [pumpB], by rw [hr]; norm_num⟩, ?_⟩
  exact (dispense_vol_physical_rounding pumpB 2 6).1 rfl (by norm_num) (by norm_num)
    (by simp [pumpB]) (by rw [hr]; norm_num)

theorem assign_rev_run_eq (p : Pump) (rev : ℚ) (h0 : 0 ≤ rev) (hr0 : pyRound2 rev ≠ 0)
    (hrpm : p.rpm ≠ 0) :
    assign_rev p rev true =
      ([Event.writeRev p.ID (pyRound2 rev), Event.writeRun p.ID],
       .ok { p with total_rev := p.total_rev + pyRound2 rev }) := by
  unfold assign_rev
  rw [if_neg (not_lt.mpr h0)]
  simp [hr0, run_pump, hrpm]

theorem assign_rev_norun_eq (p : Pump) (rev : ℚ) (h0 : 0 ≤ rev) (hr0 : pyRound2 rev ≠ 0) :
    assign_rev p rev false =
      ([Event.writeRev p.ID (pyRound2 rev)],
       .ok { p with total_rev := p.total_rev + pyRound2 rev }) := by
  unfold assign_rev
  rw [if_neg (not_lt.mpr h0)]
  simp [hr0]

theorem pollLoop_eq (pumpId : Nat) (pre : List String) (st : String)
    (hpre : ∀ x ∈ pre, x = "Running") (hst : st ≠ "Running") :
    pollLoop pumpId (pre ++ [st])
      = some (pre.map (Event.poll pumpId) ++ [Event.poll pumpId st]) := by
  induction pre with
  | nil =>
    simp only [List.nil_append, pollLoop]
    rw [if_neg hst]
    simp
  | cons a rest ih =>
    have ha : a = "Running" := hpre a (List.mem_cons_self a rest)
    have ih' := ih (fun x hx => hpre x (List.mem_cons_of_mem _ hx))
    simp only [List.cons_append, pollLoop]
    rw [ha, if_pos rfl]
    have hr : pollLoop pumpId (rest.append [st])
        = some (List.map (Event.poll pumpId) rest ++ [Event.poll pumpId st]) := ih'
    rw [hr]
    simp

/-- C2: a virtual-pump dispense of volume `vol` at split ratio `ratio`
commands `round(vol * ratio / v1, 2)` revolutions on pump 1 (its own
calibration `v1`) with an immediate run, then `round(vol * (1 - ratio)
/ v2, 2)` revolutions on pump 2 (its own calibration `v2`) armed
without running, and issues pump 2's run frame only after a status poll
of pump 1 reported something other than `"Running"` (all earlier polls
having reported `"Running"`). -/
theorem dispense_vol_virtual_split_sequencing
    (p1 p2 : Pump) (v1 v2 ratio vol : ℚ) (pre : List String) (st : String)
    (h1 : p1.vol_per_rev = some v1) (h2 : p2.vol_per_rev = some v2)
    (hv1 : 0 < v1) (hv2 : 0 < v2)
    (hnn1 : 0 ≤ vol * ratio) (hnn2 : 0 ≤ vol * (1 - ratio))
    (hrpm1 : p1.rpm ≠ 0) (hrpm2 : p2.rpm ≠ 0)
    (hz1 : pyRound2 (vol * ratio / v1) ≠ 0) (hz2 : pyRound2 (vol * (1 - ratio) / v2) ≠ 0)
    (hpre : ∀ x ∈ pre, x = "Running") (hst : st ≠ "Running") :
    dispense_vol_virtual p1 p2 ratio vol (pre ++ [st]) =
      ([Event.writeRev p1.ID (pyRound2 (vol * ratio / v1)), Event.writeRun p1.ID,
        Event.writeRev p2.ID (pyRound2 (vol * (1 - ratio) / v2))]
        ++ pre.map (Event.poll p1.ID) ++ [Event.poll p1.ID st, Event.writeRun p2.ID],
       .done { p1 with total_rev := p1.total_rev + pyRound2 (vol * ratio / v1) }
             { p2 with total_rev := p2.total_rev + pyRound2 (vol * (1 - ratio) / v2) }) := by
  have hc1 : p1.vol_to_rev (vol * ratio) = .ok (vol * ratio / v1) := by
    unfold Pump.vol_to_rev
    rw [if_neg (not_lt.mpr hnn1), h1]
  have hc2 : p2.vol_to_rev (vol * (1 - ratio)) = .ok (vol * (1 - ratio) / v2) := by
    unfold Pump.vol_to_rev
    rw [if_neg (not_lt.mpr hnn2), h2]
  have ha1 := assign_rev_run_eq p1 (vol * ratio / v1) (div_nonneg hnn1 hv1.le) hz1 hrpm1
  have ha2 := assign_rev_norun_eq p2 (vol * (1 - ratio) / v2) (div_nonneg hnn2 hv2.le) hz2
  have hp := pollLoop_eq p1.ID pre st hpre hst
  have hrun : run_pump { p2 with total_rev := p2.total_rev + pyRound2 (vol * (1 - ratio) / v2) }
      = ([Event.writeRun p2.ID], .ok ()) := by
    simp [run_pump, hrpm2]
  unfold dispense_vol_virtual
  rw [hc1, hc2]
  simp only [ha1, ha2, hp, hrun]
  simp

/-- Constituent pump 1 of a sample virtual pump. -/
def pumpC : Pump :=
  { ID := 1, total_rev := 0, rpm := 100, vol_per_rev := some 1, direction := some "cw" }

/-- Constituent pump 2 of a sample virtual pump. -/
def pumpD : Pump :=
  { ID := 2, total_rev := 0, rpm := 100, vol_per_rev := some 1, direction := some "cw" }

theorem dispense_vol_virtual_split_sequencing_witness :
    (pumpC.vol_per_rev = some 1 ∧ pumpD.vol_per_rev = some 1 ∧ (0:ℚ) < 1 ∧
     (0:ℚ) ≤ 2 * (1/2) ∧ (0:ℚ) ≤ 2 * (1 - 1/2) ∧ pumpC.rpm ≠ 0 ∧ pumpD.rpm ≠ 0 ∧
     pyRound2 ((2:ℚ) * (1/2) / 1) ≠ 0 ∧ pyRound2 ((2:ℚ) * (1 - 1/2) / 1) ≠ 0 ∧
     (∀ x ∈ ["Running"], x = "Running") ∧ "Idle" ≠ "Running") ∧
    dispense_vol_virtual pumpC pumpD (1/2) 2 (["Running"] ++ ["Idle"]) =
      ([Event.writeRev pumpC.ID (pyRound2 ((2:ℚ) * (1/2) / 1)), Event.writeRun pumpC.ID,
        Event.writeRev pumpD.ID (pyRound2 ((2:ℚ) * (1 - 1/2) / 1))]
        ++ List.map (Event.poll pumpC.ID) ["Running"]
        ++ [Event.poll pumpC.ID "Idle", Event.writeRun pumpD.ID],
       .done { pumpC with total_rev := pumpC.total_rev + pyRound2 ((2:ℚ) * (1/2) / 1) }
             { pumpD with total_rev := pumpD.total_rev + pyRound2 ((2:ℚ) * (1 - 1/2) / 1) }) := by
  have hq1 : pyRound2 ((2:ℚ) * (1/2) / 1) ≠ 0 := by
    rw [show ((2:ℚ) * (1/2) / 1) = ((1:ℤ) : ℚ) by norm_num, pyRound2_intCast]
    norm_num
  have hq2 : pyRound2 ((2:ℚ) * (1 - 1/2) / 1) ≠ 0 := by
    rw [show ((2:ℚ) * (1 - 1/2) / 1) = ((1:ℤ) : ℚ) by norm_num, pyRound2_intCast]
    norm_num
  refine ⟨⟨rfl, rfl, by norm_num, by norm_num, by norm_num, by simp [pumpC],
           by simp [pumpD], hq1, hq2, by simp, by decide⟩, ?_⟩
  exact dispense_vol_virtual_split_sequencing pumpC pumpD 1 1 (1/2) 2 ["Running"] "Idle"
    rfl rfl (by norm_num) (by norm_num) (by norm_num) (by norm_num)
    (by simp [pumpC]) (by simp [pumpD]) hq1 hq2 (by simp) (by decide)
